import Mathlib

/-
Verification of the settings / activity-log persistence slice of the
nebula backend (src/backend/apps/core/models.py and
src/backend/apps/core/admin.py).

The relational store is embedded as an association list from primary key
to row for the settings table, and as a plain list of rows for the
activity-log table.  Timestamps are integers (seconds); the ambient
clock is passed explicitly as a `now` argument wherever the source reads
the current time (auto_now, auto_now_add, datetime.now()).
-/

set_option linter.unusedVariables false

/-- Modelled from the spec: the one-way salted password hasher of
django.contrib.auth.hashers, which is external to this repository.  The
spec only requires that hashing is deterministic one-way encoding and
that verification compares a raw password against a stored hash using
the same function, so the hasher is abstracted as an injective encoding
of the raw password. -/
def Hashers.make_password (raw : String) : String :=
  "pbkdf2_sha256$" ++ raw

/-- Modelled from the spec: django.contrib.auth.hashers.check_password,
verifying a raw password against a stored encoded hash. -/
def Hashers.check_password (raw encoded : String) : Bool :=
  encoded == Hashers.make_password raw

/-- The SystemSettings model row (models.py lines 7..18): hashed access
password, creation and update timestamps, active flag.  The primary key
is kept in the table, not in the row. -/
structure SystemSettings where
  access_password_hash : String
  created_at : Int
  updated_at : Int
  is_active : Bool
deriving DecidableEq

/-- The settings table: rows keyed by primary key. -/
abbrev SettingsTable := List (Nat × SystemSettings)

/-- SystemSettings.objects.filter(pk=1).first(): the first row stored
under primary key 1, if any. -/
def lookup1 (tbl : SettingsTable) : Option SystemSettings :=
  (tbl.find? (fun p => p.1 == 1)).map Prod.snd

/-- SystemSettings.objects.filter(pk=1).exists(). -/
def exists1 (tbl : SettingsTable) : Bool :=
  tbl.any (fun p => p.1 == 1)

/-- SystemSettings.set_password (models.py lines 24..26): hash the raw
password into the in-memory instance. -/
def SystemSettings.set_password (self : SystemSettings) (raw : String) : SystemSettings :=
  { self with access_password_hash := Hashers.make_password raw }

/-- SystemSettings.check_password (models.py lines 28..30): verify a raw
password against the stored hash. -/
def SystemSettings.check_password (self : SystemSettings) (raw : String) : Bool :=
  Hashers.check_password raw self.access_password_hash

/-- Result of SystemSettings.get_settings: the returned instance, the
table after the call, and whether the returned instance was re-read
from storage after the lookup (refresh_from_db on the existing-record
branch; the creation branch returns the in-memory instance built by
objects.create). -/
structure GetSettingsResult where
  settings : SystemSettings
  table : SettingsTable
  refreshed_from_db : Bool
deriving DecidableEq

/-- SystemSettings.get_settings (models.py lines 32..47): look up the
row with pk 1; if absent, objects.create(pk=1,
access_password_hash=make_password(admin123), is_active=True) inserts a
fresh row whose auto timestamps are both `now` and returns the
in-memory instance; if present, refresh_from_db re-reads the stored row
and the instance is returned. -/
def SystemSettings.get_settings (now : Int) (tbl : SettingsTable) : GetSettingsResult :=
  match lookup1 tbl with
  | some s => { settings := s, table := tbl, refreshed_from_db := true }
  | none =>
      let s : SystemSettings :=
        { access_password_hash := Hashers.make_password "admin123"
          created_at := now, updated_at := now, is_active := true }
      { settings := s, table := tbl ++ [(1, s)], refreshed_from_db := false }

/-- SystemSettings.save (models.py lines 49..74): force pk 1; if a row
with pk 1 exists, run a direct SQL UPDATE of access_password_hash and
is_active only (QuerySet.update bypasses save() and therefore does not
touch the auto_now field updated_at, nor created_at); otherwise insert
the instance with force_insert, the auto fields created_at and
updated_at both being set to `now` by the base save.  The block of the
source that copies id, created_at and updated_at from the database back
onto the in-memory instance only mutates that instance and is not
modelled, since no further source code reads it. -/
def SystemSettings.save (now : Int) (self : SystemSettings) (tbl : SettingsTable) : SettingsTable :=
  if exists1 tbl then
    tbl.map (fun p =>
      if p.1 == 1 then
        (p.1, { p.2 with
                  access_password_hash := self.access_password_hash
                  is_active := self.is_active })
      else p)
  else
    tbl ++ [(1, { self with created_at := now, updated_at := now })]

/-- SystemSettings.delete (models.py lines 76..78): the body is `pass`,
so the stored table is untouched and no error is raised (the function
is total). -/
def SystemSettings.delete (self : SystemSettings) (tbl : SettingsTable) : SettingsTable :=
  tbl

/-- SystemSettingsAdmin.has_delete_permission (admin.py lines 179..181):
always False. -/
def SystemSettingsAdmin.has_delete_permission (obj : Option SystemSettings) : Bool :=
  false

/-- The public operations of the settings store exercised by the spec:
getOrCreate is get_settings; setPassword is get_settings followed by
set_password and save; setActive is get_settings followed by flipping
is_active and save. -/
inductive SettingsOp where
  | getOrCreate : SettingsOp
  | setPassword : String → SettingsOp
  | setActive : Bool → SettingsOp
deriving DecidableEq

/-- One settings-store operation, run at time `now` against the table. -/
def runOp (now : Int) (op : SettingsOp) (tbl : SettingsTable) : SettingsTable :=
  match op with
  | .getOrCreate => (SystemSettings.get_settings now tbl).table
  | .setPassword raw =>
      let g := SystemSettings.get_settings now tbl
      SystemSettings.save now (SystemSettings.set_password g.settings raw) g.table
  | .setActive b =>
      let g := SystemSettings.get_settings now tbl
      SystemSettings.save now { g.settings with is_active := b } g.table

/-- A sequence of timed settings-store operations. -/
def runOps : List (Int × SettingsOp) → SettingsTable → SettingsTable
  | [], tbl => tbl
  | p :: rest, tbl => runOps rest (runOp p.1 p.2 tbl)

/-- The reasons of the ValidationError raised by
SystemSettingsForm.clean (admin.py lines 32..51), in source order. -/
inductive ValidationReason where
  | empty_new : ValidationReason
  | empty_confirm : ValidationReason
  | mismatch : ValidationReason
  | too_short : ValidationReason
deriving DecidableEq

/-- Errors of the settings write path as classified by the spec:
validation failures carry their reason; consistency and storage errors
are the post-write verification and persistence failures. -/
inductive CoreError where
  | validation : ValidationReason → CoreError
  | consistency : CoreError
  | storage : CoreError
deriving DecidableEq

/-- SystemSettingsForm.clean (admin.py lines 32..51): when at least one
of the two password fields is non-empty, check in order that the new
password is non-empty, the confirmation is non-empty, that both agree,
and that the new password has at least 6 characters; when both fields
are empty, no validation runs at all.  Returns the reason of the raised
ValidationError, or none when the form is valid. -/
def SystemSettingsForm.clean (new_password confirm_password : String) : Option ValidationReason :=
  if new_password ≠ "" ∨ confirm_password ≠ "" then
    if new_password = "" then some .empty_new
    else if confirm_password = "" then some .empty_confirm
    else if new_password ≠ confirm_password then some .mismatch
    else if new_password.length < 6 then some .too_short
    else none
  else none

/-- Modelled from the spec: the storage engine may fail to apply a
write (the StorageError scenario of the error taxonomy), which is
behaviour of the external database, not of this repository.  The
oracle lists, for each successive write, whether it takes effect; an
exhausted oracle means every further write takes effect.  The write
itself is SystemSettings.save. -/
def save_eff (o : List Bool) (now : Int) (self : SystemSettings) (tbl : SettingsTable) :
    SettingsTable × List Bool :=
  let applied := SystemSettings.save now self tbl
  match o with
  | [] => (applied, [])
  | e :: rest => ((if e then applied else tbl), rest)

/-- Result of SystemSettingsAdmin.save_model: the table after the call,
the row obtained by the post-write re-read (none when the read raised
DoesNotExist), whether the one fallback re-save ran, and the error
surfaced to the caller. -/
structure SaveModelResult where
  table : SettingsTable
  reread : Option SystemSettings
  retried : Bool
  error : Option CoreError
deriving DecidableEq

/-- The save and post-write verification block of
SystemSettingsAdmin.save_model (admin.py lines 131..149): the prepared
instance is saved, the pk-1 row is re-read (a DoesNotExist lands in the
catch-all handler which only logs); if a new password was supplied and
does not verify against the re-read hash, the row is re-saved exactly
once with the password re-applied, with no further verification.
Every exception of the block is caught and logged, so the surfaced
error is always none. -/
def SystemSettingsAdmin.save_model_verify (o : List Bool) (now : Int) (tbl : SettingsTable)
    (new_password : Option String) (obj : SystemSettings) : SaveModelResult :=
  let s1 := save_eff o now obj tbl
  match lookup1 s1.1 with
  | none => { table := s1.1, reread := none, retried := false, error := none }
  | some saved =>
      match new_password with
      | some p =>
          if SystemSettings.check_password saved p then
            { table := s1.1, reread := some saved, retried := false, error := none }
          else
            let retry := SystemSettings.set_password saved p
            let s2 := save_eff s1.2 now retry s1.1
            { table := s2.1, reread := some saved, retried := true, error := none }
      | none => { table := s1.1, reread := some saved, retried := false, error := none }

/-- SystemSettingsAdmin.save_model (admin.py lines 78..149).  The form
instance starts from the stored pk-1 row (or from field defaults when
there is none) with is_active taken from the form; the two redundant
pre-save blocks copy the stored hash when no new password was supplied
and the stored is_active when the form did not change it, and fall back
to the default credential admin123 when no record and no password
exist; a supplied new password is hashed into the instance and an empty
hash is replaced by the default credential; the prepared instance is
then saved and verified by save_model_verify. -/
def SystemSettingsAdmin.save_model (o : List Bool) (now : Int) (tbl : SettingsTable)
    (form_is_active : Bool) (is_active_changed : Bool)
    (new_password : Option String) : SaveModelResult :=
  let obj0 : SystemSettings :=
    match lookup1 tbl with
    | some r => { r with is_active := form_is_active }
    | none =>
        { access_password_hash := "", created_at := now, updated_at := now
          is_active := form_is_active }
  let obj1 : SystemSettings :=
    match lookup1 tbl with
    | some ex =>
        let a := if new_password.isNone then
                   { obj0 with access_password_hash := ex.access_password_hash }
                 else obj0
        if ¬ is_active_changed then { a with is_active := ex.is_active } else a
    | none => obj0
  let changed_data_empty : Bool := !is_active_changed && new_password.isNone
  let obj2 : SystemSettings :=
    match lookup1 tbl with
    | some ex =>
        let a := if new_password.isNone then
                   { obj1 with access_password_hash := ex.access_password_hash }
                 else obj1
        if changed_data_empty ∨ ¬ is_active_changed then
          (if changed_data_empty then { a with is_active := ex.is_active } else a)
        else a
    | none =>
        if new_password.isNone then SystemSettings.set_password obj1 "admin123" else obj1
  let obj3 : SystemSettings :=
    match new_password with
    | some p => SystemSettings.set_password obj2 p
    | none => obj2
  let obj4 : SystemSettings :=
    if obj3.access_password_hash = "" then SystemSettings.set_password obj3 "admin123"
    else obj3
  SystemSettingsAdmin.save_model_verify o now tbl new_password obj4

/-- The end-to-end password-set operation through the admin form: both
password fields are submitted with the same value `p` and is_active is
left as it stands.  A validation failure stops before save_model (the
admin only calls save_model on a valid form), so the table is
untouched; otherwise save_model runs with the supplied password, an
empty submission meaning that no password change was requested. -/
def SystemSettingsAdmin.change_password (now : Int) (tbl : SettingsTable) (p : String) :
    SettingsTable × Option CoreError :=
  match SystemSettingsForm.clean p p with
  | some r => (tbl, some (CoreError.validation r))
  | none =>
      let fia := ((lookup1 tbl).map (fun r => r.is_active)).getD true
      let res := SystemSettingsAdmin.save_model [] now tbl fia false
        (if p = "" then none else some p)
      (res.table, res.error)

/-- The action enumeration of RoomActivityLog (models.py lines 89..95). -/
inductive RoomAction where
  | created : RoomAction
  | joined : RoomAction
  | left : RoomAction
  | expired : RoomAction
  | deleted : RoomAction
deriving DecidableEq

/-- A RoomActivityLog row (models.py lines 84..107). -/
structure RoomActivityLog where
  room_id : String
  action : RoomAction
  timestamp : Int
  participant_count : Nat
  ip_address : Option String
  user_agent_hash : Option String
deriving DecidableEq

/-- RoomActivityLogAdmin.delete_old_logs (admin.py lines 227..233):
computes old_date = now - 30 days and deletes every row of the whole
RoomActivityLog table whose timestamp is strictly below it, reporting
the number of deleted rows; the selected queryset is never used.
Returns the remaining table and the reported count.  Time is in
seconds, so 30 days is 30 * 86400. -/
def RoomActivityLogAdmin.delete_old_logs (queryset : List RoomActivityLog)
    (logs : List RoomActivityLog) (now : Int) : List RoomActivityLog × Nat :=
  let old_date := now - 30 * 86400
  let deleted := logs.filter (fun e => decide (e.timestamp < old_date))
  (logs.filter (fun e => !(decide (e.timestamp < old_date))), deleted.length)

/-- If no pk-1 row is in the front part of a table, the lookup passes
to the appended part. -/
lemma lookup1_append_of_none {tbl l : SettingsTable} (h : lookup1 tbl = none) :
    lookup1 (tbl ++ l) = lookup1 l := by
  unfold lookup1 at h ⊢
  have h' : tbl.find? (fun p => p.1 == 1) = none := by
    cases hf : tbl.find? (fun p => p.1 == 1) with
    | none => rfl
    | some x => rw [hf] at h; simp at h
  rw [List.find?_append, h', Option.none_or]

/-- Every settings-store operation run on an empty table or on a table
holding exactly the pk-1 row leaves a table holding exactly a pk-1
row. -/
lemma runOp_sing (now : Int) (op : SettingsOp) (tbl : SettingsTable)
    (h : tbl = [] ∨ ∃ r, tbl = [(1, r)]) :
    ∃ r, runOp now op tbl = [(1, r)] := by
  rcases h with rfl | ⟨r, rfl⟩ <;> cases op <;> exact ⟨_, rfl⟩

/-- Iterating settings-store operations preserves the single-pk-1-row
shape. -/
lemma runOps_sing (ops : List (Int × SettingsOp)) (tbl : SettingsTable)
    (h : ∃ r, tbl = [(1, r)]) : ∃ r, runOps ops tbl = [(1, r)] := by
  induction ops generalizing tbl with
  | nil => exact h
  | cons p rest ih => exact ih _ (runOp_sing p.1 p.2 tbl (Or.inr h))

/-- A table with pairwise distinct keys, all equal to 1, is empty or a
single pk-1 row. -/
lemma key_one_shape (tbl : SettingsTable) (h1 : ∀ p ∈ tbl, p.1 = 1)
    (h2 : (tbl.map Prod.fst).Nodup) : tbl = [] ∨ ∃ r, tbl = [(1, r)] := by
  match tbl with
  | [] => exact Or.inl rfl
  | [p] =>
      right
      refine ⟨p.2, ?_⟩
      have hp := h1 p (by simp)
      cases p with
      | mk a b => simp at hp; rw [hp]
  | p :: q :: rest =>
      exfalso
      have hp := h1 p (by simp)
      have hq := h1 q (by simp)
      have h2' : (p.1 :: q.1 :: rest.map Prod.fst).Nodup := by simpa using h2
      have h3 := (List.nodup_cons.mp h2').1
      apply h3
      rw [hp, hq]
      exact List.mem_cons_self _ _

/-- C1 (counterexample): starting from a storage state that already
holds a settings record under a key other than 1, a single getOrCreate
call leaves two settings records in storage, not exactly one. -/
theorem singleton_fails_from_foreign_key_state :
    (runOps [(0, SettingsOp.getOrCreate)] [(2, ⟨"h", 0, 0, true⟩)]).length = 2 := by
  rfl

/-- C1 (amended): after at least one getOrCreate, setPassword or
setActive call starting from a storage state with pairwise distinct
keys all equal to the identity key 1 (in particular the empty state),
exactly one settings record exists in storage, and it sits at key 1,
so no second record is ever created. -/
theorem singleton_invariant_key_one_states
    (ops : List (Int × SettingsOp)) (tbl : SettingsTable)
    (h1 : ∀ p ∈ tbl, p.1 = 1) (h2 : (tbl.map Prod.fst).Nodup)
    (h3 : ops ≠ []) :
    (runOps ops tbl).length = 1 ∧ ∀ p ∈ runOps ops tbl, p.1 = 1 := by
  match ops with
  | [] => exact absurd rfl h3
  | op :: rest =>
      have hs := runOp_sing op.1 op.2 tbl (key_one_shape tbl h1 h2)
      obtain ⟨r, hr⟩ := runOps_sing rest _ hs
      have he : runOps (op :: rest) tbl = [(1, r)] := hr
      rw [he]
      constructor
      · rfl
      · intro p hp
        simp at hp
        rw [hp]

/-- C1 (witness): one getOrCreate call from the empty store leaves
exactly one record, at key 1. -/
theorem singleton_invariant_key_one_states_witness :
    (runOps [(0, SettingsOp.getOrCreate)] []).length = 1 ∧
    ∀ p ∈ runOps [(0, SettingsOp.getOrCreate)] [], p.1 = 1 :=
  singleton_invariant_key_one_states [(0, SettingsOp.getOrCreate)] []
    (by simp) (by simp) (by simp)

/-- The modelled hasher is injective, so verification succeeds exactly
on the hashed password. -/
lemma make_password_inj {a b : String}
    (h : Hashers.make_password a = Hashers.make_password b) : a = b := by
  unfold Hashers.make_password at h
  have hd := congrArg String.data h
  rw [String.data_append, String.data_append] at hd
  exact String.ext (List.append_cancel_left hd)

/-- C2: for a password p of length at least 6, set_password p followed
by check_password p returns true, and check_password q returns false
for every q different from p. -/
theorem set_password_then_check
    (s : SystemSettings) (p q : String) (hp : 6 ≤ p.length) (hq : q ≠ p) :
    SystemSettings.check_password (SystemSettings.set_password s p) p = true ∧
    SystemSettings.check_password (SystemSettings.set_password s p) q = false := by
  constructor
  · simp [SystemSettings.check_password, SystemSettings.set_password, Hashers.check_password]
  · simp only [SystemSettings.check_password, SystemSettings.set_password,
      Hashers.check_password]
    rw [beq_eq_false_iff_ne]
    intro hcontra
    exact hq (make_password_inj hcontra).symm

/-- C2 (witness): concrete instance with p of length 7 and a distinct
q. -/
theorem set_password_then_check_witness :
    SystemSettings.check_password
      (SystemSettings.set_password ⟨"", 0, 0, true⟩ "secret1") "secret1" = true ∧
    SystemSettings.check_password
      (SystemSettings.set_password ⟨"", 0, 0, true⟩ "secret1") "hunter2" = false :=
  set_password_then_check ⟨"", 0, 0, true⟩ "secret1" "hunter2" (by decide) (by decide)

/-- A non-empty too-short password submitted in both fields fails the
form validation with the minimum-length reason. -/
lemma clean_short (p : String) (h0 : p ≠ "") (h6 : p.length < 6) :
    SystemSettingsForm.clean p p = some ValidationReason.too_short := by
  unfold SystemSettingsForm.clean
  rw [if_pos (Or.inl h0), if_neg h0, if_neg h0, if_neg (by simp), if_pos h6]

/-- C3 (counterexample): the empty password has length 0 < 6, yet the
password-set operation raises no ValidationError at all: both form
fields being empty, validation is skipped, save_model treats the
request as no password change, and the stored record is returned
unchanged. -/
theorem short_password_empty_no_error :
    SystemSettingsAdmin.change_password 0
      [(1, ⟨Hashers.make_password "oldpass1", 0, 0, true⟩)] ""
    = ([(1, ⟨Hashers.make_password "oldpass1", 0, 0, true⟩)], none) := by
  decide

/-- C3 (amended): for every non-empty password p with fewer than 6
characters, the password-set operation fails with the too_short
ValidationError and leaves the whole stored table, in particular the
stored password hash, unchanged; the empty submission instead performs
no password change and reports no error. -/
theorem short_password_rejected_hash_unchanged
    (now : Int) (tbl : SettingsTable) (p : String)
    (h0 : p ≠ "") (h6 : p.length < 6) :
    SystemSettingsAdmin.change_password now tbl p
      = (tbl, some (CoreError.validation ValidationReason.too_short)) := by
  unfold SystemSettingsAdmin.change_password
  rw [clean_short p h0 h6]

/-- C3 (witness): the three-character password abc is rejected as too
short and the table is untouched. -/
theorem short_password_rejected_hash_unchanged_witness :
    SystemSettingsAdmin.change_password 0 [] "abc"
      = ([], some (CoreError.validation ValidationReason.too_short)) :=
  short_password_rejected_hash_unchanged 0 [] "abc" (by decide) (by decide)

/-- C4: evaluating setPassword (get_settings, set_password, save) at
time 100 on a stored record created and last updated at time 10 shows
that the persisted is_active flag and created_at are unchanged and the
hash is updated, but updated_at stays 10 instead of being refreshed to
100: the direct UPDATE of the overridden save bypasses the auto_now
field. -/
theorem set_password_save_leaves_updated_at_stale :
    runOp 100 (SettingsOp.setPassword "secret1")
      [(1, ⟨Hashers.make_password "oldpass1", 10, 10, true⟩)]
    = [(1, ⟨Hashers.make_password "secret1", 10, 10, true⟩)] := by
  rfl

/-- C5 (counterexample): on the empty store, get_settings creates the
record but returns the in-memory instance built by objects.create with
no re-read from storage, as witnessed by the refreshed_from_db flag
being false on the creation branch. -/
theorem get_settings_create_no_readback :
    SystemSettings.get_settings 0 [] =
      { settings := ⟨Hashers.make_password "admin123", 0, 0, true⟩
        table := [(1, ⟨Hashers.make_password "admin123", 0, 0, true⟩)]
        refreshed_from_db := false } := by
  rfl

/-- C5 (amended): when no pk-1 settings record exists, get_settings
creates one with the hash of the default credential admin123 and
is_active true; the instance it returns coincides with the record now
persisted under key 1, but it is the in-memory object built by
objects.create: no read-back from storage happens on the creation
path. -/
theorem get_settings_creates_defaults
    (now : Int) (tbl : SettingsTable) (h : lookup1 tbl = none) :
    (SystemSettings.get_settings now tbl).settings
        = ⟨Hashers.make_password "admin123", now, now, true⟩ ∧
    (SystemSettings.get_settings now tbl).table
        = tbl ++ [(1, (SystemSettings.get_settings now tbl).settings)] ∧
    lookup1 (SystemSettings.get_settings now tbl).table
        = some (SystemSettings.get_settings now tbl).settings ∧
    (SystemSettings.get_settings now tbl).refreshed_from_db = false := by
  have hg : SystemSettings.get_settings now tbl =
      { settings := ⟨Hashers.make_password "admin123", now, now, true⟩
        table := tbl ++ [(1, ⟨Hashers.make_password "admin123", now, now, true⟩)]
        refreshed_from_db := false } := by
    unfold SystemSettings.get_settings
    rw [h]
  rw [hg]
  refine ⟨rfl, rfl, ?_, rfl⟩
  rw [lookup1_append_of_none h]
  rfl

/-- C5 (witness): the amended statement at the empty store and time 0. -/
theorem get_settings_creates_defaults_witness :
    (SystemSettings.get_settings 0 []).settings
        = ⟨Hashers.make_password "admin123", 0, 0, true⟩ ∧
    (SystemSettings.get_settings 0 []).table
        = [] ++ [(1, (SystemSettings.get_settings 0 []).settings)] ∧
    lookup1 (SystemSettings.get_settings 0 []).table
        = some (SystemSettings.get_settings 0 []).settings ∧
    (SystemSettings.get_settings 0 []).refreshed_from_db = false :=
  get_settings_creates_defaults 0 [] rfl

/-- C6 (counterexample): with a store that drops both writes, a
password change through save_model re-reads the stale row, retries the
write once, the retry also fails to take effect (the stored hash is
still the old one), and yet the surfaced error is none: the failure is
swallowed. -/
theorem save_model_failure_swallowed :
    SystemSettingsAdmin.save_model [false, false] 5
      [(1, ⟨Hashers.make_password "oldpass1", 0, 0, true⟩)] true false
      (some "newpass123")
    = { table := [(1, ⟨Hashers.make_password "oldpass1", 0, 0, true⟩)]
        reread := some ⟨Hashers.make_password "oldpass1", 0, 0, true⟩
        retried := true
        error := none } := by
  decide

/-- C6 (amended): on every password-carrying write through save_model,
whatever the storage behaviour, the row is re-read after the write and
the write is retried exactly when the re-read hash does not verify the
new password (and then exactly once); no error is ever surfaced to the
caller, a failed retry included - the failure is only logged. -/
theorem save_model_retry_once_never_surfaces
    (o : List Bool) (now : Int) (tbl : SettingsTable)
    (fia iac : Bool) (p : String) :
    (SystemSettingsAdmin.save_model o now tbl fia iac (some p)).error = none ∧
    ((SystemSettingsAdmin.save_model o now tbl fia iac (some p)).retried = true ↔
      ∃ s, (SystemSettingsAdmin.save_model o now tbl fia iac (some p)).reread = some s ∧
           SystemSettings.check_password s p = false) := by
  have key : ∀ (o2 : List Bool) (tbl2 : SettingsTable) (obj : SystemSettings),
      (SystemSettingsAdmin.save_model_verify o2 now tbl2 (some p) obj).error = none ∧
      ((SystemSettingsAdmin.save_model_verify o2 now tbl2 (some p) obj).retried = true ↔
        ∃ s, (SystemSettingsAdmin.save_model_verify o2 now tbl2 (some p) obj).reread = some s ∧
             SystemSettings.check_password s p = false) := by
    intro o2 tbl2 obj
    unfold SystemSettingsAdmin.save_model_verify
    dsimp only
    split
    · exact ⟨rfl, ⟨fun h => (nomatch h), fun ⟨s, hs, _⟩ => (nomatch hs)⟩⟩
    · next saved hl =>
        split
        · next hchk =>
            refine ⟨rfl, ⟨fun h => (nomatch h), fun ⟨s, hs, hc⟩ => ?_⟩⟩
            injection hs with h2
            subst h2
            rw [hchk] at hc
            exact nomatch hc
        · next hchk =>
            refine ⟨rfl, ⟨fun _ => ⟨saved, rfl, ?_⟩, fun _ => rfl⟩⟩
            cases hb : SystemSettings.check_password saved p with
            | false => rfl
            | true => exact absurd hb hchk
  exact key o tbl _

/-- Splitting a list by a Boolean predicate preserves its length. -/
lemma length_filter_add_length_filter_not {α : Type} (p : α → Bool) (l : List α) :
    (l.filter p).length + (l.filter (fun a => !p a)).length = l.length := by
  induction l with
  | nil => rfl
  | cons a t ih =>
      cases h : p a with
      | true => simp [List.filter_cons, h]; omega
      | false => simp [List.filter_cons, h]; omega

/-- C7: delete_old_logs with the 30-day cutoff keeps exactly the
entries not older than now minus 30 days (so it deletes all of the
older ones and no others), reports exactly the number removed, and an
immediate second call deletes nothing and reports 0. -/
theorem purge_older_than_thirty_days
    (qs qs2 logs : List RoomActivityLog) (now : Int) :
    (∀ e, e ∈ (RoomActivityLogAdmin.delete_old_logs qs logs now).1 ↔
        (e ∈ logs ∧ ¬ e.timestamp < now - 30 * 86400)) ∧
    (RoomActivityLogAdmin.delete_old_logs qs logs now).2
      + (RoomActivityLogAdmin.delete_old_logs qs logs now).1.length = logs.length ∧
    RoomActivityLogAdmin.delete_old_logs qs2
        (RoomActivityLogAdmin.delete_old_logs qs logs now).1 now
      = ((RoomActivityLogAdmin.delete_old_logs qs logs now).1, 0) := by
  refine ⟨?_, ?_, ?_⟩
  · intro e
    simp [RoomActivityLogAdmin.delete_old_logs, List.mem_filter]
  · have := length_filter_add_length_filter_not
      (fun e : RoomActivityLog => decide (e.timestamp < now - 30 * 86400)) logs
    simpa [RoomActivityLogAdmin.delete_old_logs] using this
  · have h1 : (logs.filter (fun e => !(decide (e.timestamp < now - 30 * 86400)))).filter
        (fun e => !(decide (e.timestamp < now - 30 * 86400)))
        = logs.filter (fun e => !(decide (e.timestamp < now - 30 * 86400))) :=
      List.filter_eq_self.mpr (fun a ha => (List.mem_filter.mp ha).2)
    have h2 : (logs.filter (fun e => !(decide (e.timestamp < now - 30 * 86400)))).filter
        (fun e => decide (e.timestamp < now - 30 * 86400)) = [] := by
      rw [List.filter_eq_nil_iff]
      intro a ha
      have hk := (List.mem_filter.mp ha).2
      simp at hk
      simp [hk]
    unfold RoomActivityLogAdmin.delete_old_logs
    dsimp only
    rw [h1, h2]
    rfl

/-- C7 (witness): two concrete entries, one 30 days and 50 seconds
old, one fresh; the purge keeps one entry, reports one removal, and a
second run reports 0. -/
theorem purge_older_than_thirty_days_witness :
    (RoomActivityLogAdmin.delete_old_logs []
        [⟨"a", RoomAction.created, 50, 2, none, none⟩,
         ⟨"b", RoomAction.joined, 2592100, 1, none, none⟩] 2592100).2
      + (RoomActivityLogAdmin.delete_old_logs []
        [⟨"a", RoomAction.created, 50, 2, none, none⟩,
         ⟨"b", RoomAction.joined, 2592100, 1, none, none⟩] 2592100).1.length = 2 ∧
    RoomActivityLogAdmin.delete_old_logs []
        (RoomActivityLogAdmin.delete_old_logs []
          [⟨"a", RoomAction.created, 50, 2, none, none⟩,
           ⟨"b", RoomAction.joined, 2592100, 1, none, none⟩] 2592100).1 2592100
      = ((RoomActivityLogAdmin.delete_old_logs []
          [⟨"a", RoomAction.created, 50, 2, none, none⟩,
           ⟨"b", RoomAction.joined, 2592100, 1, none, none⟩] 2592100).1, 0) :=
  ⟨(purge_older_than_thirty_days [] []
      [⟨"a", RoomAction.created, 50, 2, none, none⟩,
       ⟨"b", RoomAction.joined, 2592100, 1, none, none⟩] 2592100).2.1,
   (purge_older_than_thirty_days [] []
      [⟨"a", RoomAction.created, 50, 2, none, none⟩,
       ⟨"b", RoomAction.joined, 2592100, 1, none, none⟩] 2592100).2.2⟩

/-- C10: the bulk action ignores the administrator's selection: the
result is the same for every queryset, every entry of the whole table
older than the cutoff is removed even when outside the selection, and
every entry not older than the cutoff survives even when selected. -/
theorem delete_old_logs_ignores_selection
    (qs qs2 logs : List RoomActivityLog) (now : Int) :
    RoomActivityLogAdmin.delete_old_logs qs logs now
      = RoomActivityLogAdmin.delete_old_logs qs2 logs now ∧
    (∀ e, e ∈ logs → e.timestamp < now - 30 * 86400 →
        e ∉ (RoomActivityLogAdmin.delete_old_logs qs logs now).1) ∧
    (∀ e, e ∈ logs → ¬ e.timestamp < now - 30 * 86400 →
        e ∈ (RoomActivityLogAdmin.delete_old_logs qs logs now).1) := by
  refine ⟨rfl, ?_, ?_⟩
  · intro e he hlt hmem
    have hk := (List.mem_filter.mp hmem).2
    simp at hk
    omega
  · intro e he hge
    unfold RoomActivityLogAdmin.delete_old_logs
    dsimp only
    rw [List.mem_filter]
    refine ⟨he, ?_⟩
    rw [decide_eq_false hge]
    rfl

/-- C10 (witness): with only the fresh entry selected, the unselected
old entry is still deleted and the selected fresh entry is still
kept. -/
theorem delete_old_logs_ignores_selection_witness :
    (⟨"a", RoomAction.created, 50, 2, none, none⟩ : RoomActivityLog) ∉
      (RoomActivityLogAdmin.delete_old_logs
        [⟨"b", RoomAction.joined, 2592100, 1, none, none⟩]
        [⟨"a", RoomAction.created, 50, 2, none, none⟩,
         ⟨"b", RoomAction.joined, 2592100, 1, none, none⟩] 2592100).1 ∧
    (⟨"b", RoomAction.joined, 2592100, 1, none, none⟩ : RoomActivityLog) ∈
      (RoomActivityLogAdmin.delete_old_logs
        [⟨"b", RoomAction.joined, 2592100, 1, none, none⟩]
        [⟨"a", RoomAction.created, 50, 2, none, none⟩,
         ⟨"b", RoomAction.joined, 2592100, 1, none, none⟩] 2592100).1 :=
  ⟨(delete_old_logs_ignores_selection
      [⟨"b", RoomAction.joined, 2592100, 1, none, none⟩] []
      [⟨"a", RoomAction.created, 50, 2, none, none⟩,
       ⟨"b", RoomAction.joined, 2592100, 1, none, none⟩] 2592100).2.1
      ⟨"a", RoomAction.created, 50, 2, none, none⟩ (by simp) (by decide),
   (delete_old_logs_ignores_selection
      [⟨"b", RoomAction.joined, 2592100, 1, none, none⟩] []
      [⟨"a", RoomAction.created, 50, 2, none, none⟩,
       ⟨"b", RoomAction.joined, 2592100, 1, none, none⟩] 2592100).2.2
      ⟨"b", RoomAction.joined, 2592100, 1, none, none⟩ (by simp) (by decide)⟩

/-- C8: two get_settings calls with no write in between return records
with the same password hash and the same creation timestamp, whatever
the starting table and the two call times. -/
theorem get_settings_idempotent (now1 now2 : Int) (tbl : SettingsTable) :
    (SystemSettings.get_settings now2
        (SystemSettings.get_settings now1 tbl).table).settings.access_password_hash
      = (SystemSettings.get_settings now1 tbl).settings.access_password_hash ∧
    (SystemSettings.get_settings now2
        (SystemSettings.get_settings now1 tbl).table).settings.created_at
      = (SystemSettings.get_settings now1 tbl).settings.created_at := by
  cases h : lookup1 tbl with
  | some s =>
      have h1 : SystemSettings.get_settings now1 tbl =
          { settings := s, table := tbl, refreshed_from_db := true } := by
        unfold SystemSettings.get_settings
        rw [h]
      have h2 : SystemSettings.get_settings now2 tbl =
          { settings := s, table := tbl, refreshed_from_db := true } := by
        unfold SystemSettings.get_settings
        rw [h]
      rw [h1]
      rw [h2]
      exact ⟨rfl, rfl⟩
  | none =>
      have h1 : SystemSettings.get_settings now1 tbl =
          { settings := ⟨Hashers.make_password "admin123", now1, now1, true⟩
            table := tbl ++ [(1, ⟨Hashers.make_password "admin123", now1, now1, true⟩)]
            refreshed_from_db := false } := by
        unfold SystemSettings.get_settings
        rw [h]
      have hl : lookup1 (tbl ++ [(1, (⟨Hashers.make_password "admin123", now1, now1, true⟩ :
          SystemSettings))]) = some ⟨Hashers.make_password "admin123", now1, now1, true⟩ := by
        rw [lookup1_append_of_none h]
        rfl
      have h2 : SystemSettings.get_settings now2
          (tbl ++ [(1, ⟨Hashers.make_password "admin123", now1, now1, true⟩)]) =
          { settings := ⟨Hashers.make_password "admin123", now1, now1, true⟩
            table := tbl ++ [(1, ⟨Hashers.make_password "admin123", now1, now1, true⟩)]
            refreshed_from_db := true } := by
        unfold SystemSettings.get_settings
        rw [hl]
      rw [h1]
      rw [h2]
      exact ⟨rfl, rfl⟩

/-- C9: on every storage state holding a pk-1 settings record, delete
leaves the whole table unchanged, the record still present and intact,
and it raises nothing (the embedding is a total function); the admin
additionally denies delete permission on the record. -/
theorem settings_delete_disallowed (s : SystemSettings) (tbl : SettingsTable)
    (r : SystemSettings) (h : lookup1 tbl = some r) :
    SystemSettings.delete s tbl = tbl ∧
    lookup1 (SystemSettings.delete s tbl) = some r ∧
    SystemSettingsAdmin.has_delete_permission (some r) = false :=
  ⟨rfl, h, rfl⟩

/-- C9 (witness): deleting the concrete stored record changes
nothing. -/
theorem settings_delete_disallowed_witness :
    SystemSettings.delete ⟨Hashers.make_password "oldpass1", 0, 0, true⟩
        [(1, ⟨Hashers.make_password "oldpass1", 0, 0, true⟩)]
      = [(1, ⟨Hashers.make_password "oldpass1", 0, 0, true⟩)] ∧
    lookup1 (SystemSettings.delete ⟨Hashers.make_password "oldpass1", 0, 0, true⟩
        [(1, ⟨Hashers.make_password "oldpass1", 0, 0, true⟩)])
      = some ⟨Hashers.make_password "oldpass1", 0, 0, true⟩ ∧
    SystemSettingsAdmin.has_delete_permission
        (some ⟨Hashers.make_password "oldpass1", 0, 0, true⟩) = false :=
  settings_delete_disallowed ⟨Hashers.make_password "oldpass1", 0, 0, true⟩
    [(1, ⟨Hashers.make_password "oldpass1", 0, 0, true⟩)]
    ⟨Hashers.make_password "oldpass1", 0, 0, true⟩ (by rfl)
